import Mathlib

/-!
Verification of the `deep-tech-demos` Python scripts.

Each script is a standalone collection of `demo_*` functions plus a
`__main__` block.  The definitions below shallowly embed the pieces of
those scripts that the verified properties are about: Python values and
instance dictionaries (for the descriptor demos of
`01_descriptor_protocol.py`), `types.MappingProxyType` views (for
`08_mapping_proxy_type.py`), the `ImportBlocker` meta-path finder (from
`06_custom_import_hooks.py`), the sentinel-based `set_config` (from
`09_late_bound_defaults.py`), the module-level context variables of
`10_contextvars.py`, and the structure of every script's entry point.
-/

namespace DeepTechDemos

/-! ### Association lists

Python dictionaries are embedded as association lists with first-match
lookup and in-place overwrite, which matches insertion-order-preserving
`dict` semantics for the operations the demos use. -/

def alistGet {κ β : Type} [DecidableEq κ] (l : List (κ × β)) (k : κ) : Option β :=
  match l with
  | [] => none
  | (k2, v) :: rest => if k2 = k then some v else alistGet rest k

def alistSet {κ β : Type} [DecidableEq κ] (l : List (κ × β)) (k : κ) (v : β) :
    List (κ × β) :=
  match l with
  | [] => [(k, v)]
  | (k2, w) :: rest =>
      if k2 = k then (k2, v) :: rest else (k2, w) :: alistSet rest k v

theorem alistGet_alistSet_self {κ β : Type} [DecidableEq κ]
    (l : List (κ × β)) (k : κ) (v : β) : alistGet (alistSet l k v) k = some v := by
  induction l with
  | nil => simp [alistGet, alistSet]
  | cons hd tl ih =>
      obtain ⟨k2, w⟩ := hd
      by_cases h : k2 = k
      · simp [alistGet, alistSet, h]
      · simp [alistGet, alistSet, h, ih]

theorem alistGet_alistSet_ne {κ β : Type} [DecidableEq κ]
    (l : List (κ × β)) (k k2 : κ) (v : β) (h : k2 ≠ k) :
    alistGet (alistSet l k v) k2 = alistGet l k2 := by
  induction l with
  | nil => simp [alistGet, alistSet, Ne.symm h]
  | cons hd tl ih =>
      obtain ⟨k3, w⟩ := hd
      by_cases h3 : k3 = k
      · subst h3
        simp [alistGet, alistSet, Ne.symm h]
      · simp only [alistSet, if_neg h3]
        by_cases h4 : k3 = k2
        · simp [alistGet, h4]
        · simp [alistGet, h4, ih]

/-! ### Python values

The demos manipulate ints, bools, strings, `None` and plain objects.
Object identity (`is`) is modelled by a numeric object id; `isinstance`
follows CPython, where `bool` is a subclass of `int`. -/

inductive PyVal : Type where
  | intV : Int → PyVal
  | boolV : Bool → PyVal
  | strV : String → PyVal
  | noneV : PyVal
  | objV : Nat → PyVal
  deriving DecidableEq, Repr

inductive PyType : Type where
  | intT : PyType
  | strT : PyType
  | boolT : PyType
  | objT : PyType
  deriving DecidableEq, Repr

def isinstance : PyVal → PyType → Bool
  | .intV _, .intT => true
  | .boolV _, .intT => true
  | .boolV _, .boolT => true
  | .strV _, .strT => true
  | .objV _, .objT => true
  | _, _ => false

inductive PyErr : Type where
  | typeError (msg : String)
  | valueError (msg : String)
  | importError (msg : String)
  | keyError (key : String)
  deriving DecidableEq, Repr

def raisesTypeError : Except PyErr Unit → Bool
  | .error (.typeError _) => true
  | _ => false

def raisesImportError {α : Type} : Except PyErr α → Bool
  | .error (.importError _) => true
  | _ => false

/-- An instance's `__dict__`. -/
abbrev Dict := List (String × PyVal)

/-! ### `Typed` descriptor (01_descriptor_protocol.py, lines 10-30) -/

structure Typed where
  name : String
  expected_type : PyType
  deriving DecidableEq, Repr

/-- `Typed.__get__` with a non-`None` instance: returns
`instance.__dict__[self.name]` (`none` models the `KeyError` when the
attribute was never stored). -/
def Typed.get (t : Typed) (inst : Dict) : Option PyVal :=
  alistGet inst t.name

/-- `Typed.__set__`: raise `TypeError` when the value is not an instance of
`expected_type`, otherwise store it in `instance.__dict__[self.name]`.
The returned pair is (raised exception or unit, instance `__dict__` after
the call). -/
def Typed.set (t : Typed) (inst : Dict) (value : PyVal) :
    Except PyErr Unit × Dict :=
  if isinstance value t.expected_type then
    (.ok (), alistSet inst t.name value)
  else
    (.error (.typeError (t.name ++ " must be expected type, got other")), inst)

/-! ### `types.MappingProxyType` (08_mapping_proxy_type.py)

A mapping proxy is a read-only view that delegates reads to the wrapped
dict and defines no mutation methods, so item assignment and item
deletion raise `TypeError` and leave the wrapped dict untouched. -/

/-- `proxy[k]`: delegated to the wrapped dict. -/
def proxyGet (d : Dict) (k : String) : Option PyVal :=
  alistGet d k

/-- `proxy[k] = v`: always raises `TypeError`; the wrapped dict is
returned unchanged. -/
def proxySetItem (d : Dict) (_ : String) (_ : PyVal) : Except PyErr Unit × Dict :=
  (.error (.typeError "mappingproxy object does not support item assignment"), d)

/-- `del proxy[k]`: always raises `TypeError`; the wrapped dict is
returned unchanged. -/
def proxyDelItem (d : Dict) (_ : String) : Except PyErr Unit × Dict :=
  (.error (.typeError "mappingproxy object does not support item deletion"), d)

/-! ### `ImportBlocker` (06_custom_import_hooks.py, lines 22-30) -/

structure ImportBlocker where
  blocked_modules : List String
  deriving DecidableEq, Repr

/-- `ImportBlocker.find_spec`: raise `ImportError` for a blocked module
name, otherwise return `None` so the remaining finders handle the
import.  `.ok none` models the Python `None` return. -/
def ImportBlocker.find_spec (b : ImportBlocker) (fullname : String) :
    Except PyErr (Option Unit) :=
  if fullname ∈ b.blocked_modules then
    .error (.importError ("Import of " ++ fullname ++ " is not allowed"))
  else
    .ok none

/-! ### Sentinel pattern (09_late_bound_defaults.py, lines 110-129)

`_not_provided = object()` is a module-fresh object used as the default
of `set_config`; `value is _not_provided` is an identity test. -/

/-- The sentinel object `_not_provided` of `demo_distinguishing_none`. -/
def not_provided : PyVal := .objV 0

/-- The three print branches of `set_config`. -/
inductive ConfigBranch : Type where
  | notSetKeeping : ConfigBranch
  | clearingToNone : ConfigBranch
  | setToValue : ConfigBranch
  deriving DecidableEq, Repr

/-- `set_config(key, value=_not_provided)`: branch taken by the body.
A call that omits `value` passes `not_provided` here, which is how
Python binds the default. -/
def set_config (_ : String) (value : PyVal) : ConfigBranch :=
  if value = not_provided then .notSetKeeping
  else if value = .noneV then .clearingToNone
  else .setToValue

/-! ### `LazyProperty` (01_descriptor_protocol.py, lines 33-46) -/

/-- An instance as seen by `LazyProperty`: its `__dict__` plus the other
mutable state the wrapped function may touch (e.g. `computation_count`
in `demo_lazy_property`). -/
structure Inst where
  attrs : Dict
  count : Nat
  deriving DecidableEq, Repr

structure LazyProperty where
  /-- Set to `func.__name__` in `LazyProperty.__init__`. -/
  name : String
  deriving DecidableEq, Repr

/-- `LazyProperty.__get__` with a non-`None` instance.  `func` is
`self.func`, which may read and mutate the instance.  Returns the value
read, the instance afterwards, and whether `func` was called. -/
def LazyProperty.get (lp : LazyProperty) (func : Inst → PyVal × Inst)
    (inst : Inst) : PyVal × Inst × Bool :=
  match alistGet inst.attrs lp.name with
  | some v => (v, inst, false)
  | none =>
      let r := func inst
      (r.1, { r.2 with attrs := alistSet r.2.attrs lp.name r.1 }, true)

/-- `n` consecutive reads of the lazy attribute: the list of values
read, the final instance, and how many of the reads called `func`. -/
def LazyProperty.getN (lp : LazyProperty) (func : Inst → PyVal × Inst) :
    Nat → Inst → List PyVal × Inst × Nat
  | 0, inst => ([], inst, 0)
  | n + 1, inst =>
      let r := lp.get func inst
      let rest := LazyProperty.getN lp func n r.2.1
      (r.1 :: rest.1, rest.2.1, (if r.2.2 then 1 else 0) + rest.2.2)

/-! ### Module-level context variables of 10_contextvars.py

`request_id = ContextVar('request_id', default='no-request')` and
`user_id = ContextVar('user_id', default=None)` live at module level.
A context is modelled by its bindings for these two variables (`none`
means "never set in this context", so `get` falls back to the
default). -/

structure ModuleCtx where
  requestIdBinding : Option String
  userIdBinding : Option PyVal
  deriving DecidableEq, Repr

/-- `request_id.get()`: the binding, or the default `'no-request'`. -/
def requestIdGet (c : ModuleCtx) : String :=
  c.requestIdBinding.getD "no-request"

/-- `user_id.get()`: the binding, or the default `None`. -/
def userIdGet (c : ModuleCtx) : PyVal :=
  c.userIdBinding.getD .noneV

/-- The context before any demo of 10_contextvars.py ran. -/
def initialModuleCtx : ModuleCtx :=
  { requestIdBinding := none, userIdBinding := none }

/-- `handle_request(rid)` of `demo_request_tracking`: calls
`request_id.set(rid)` and then only reads (`log`, `process_request`,
`validate_data`, `save_to_database` all just call `request_id.get()`
and print). -/
def handle_request (rid : String) (c : ModuleCtx) : ModuleCtx :=
  { c with requestIdBinding := some rid }

/-- `demo_request_tracking()`: effect on the calling context.  It calls
`handle_request("req-001")` and then `handle_request("req-002")` and
never resets `request_id`. -/
def demo_request_tracking (c : ModuleCtx) : ModuleCtx :=
  handle_request "req-002" (handle_request "req-001" c)

/-- The body of the async `handle_request(rid, uid)` of
`demo_async_request_tracking`, acting on the context of the task that
runs it: `request_id.set(rid)`, `user_id.set(uid)`, then reads only. -/
def async_handle_request (rid : String) (uid : PyVal) (taskCtx : ModuleCtx) :
    ModuleCtx :=
  { taskCtx with requestIdBinding := some rid, userIdBinding := some uid }

/-- `demo_async_request_tracking()`: `asyncio.gather` wraps each
coroutine in a task, and each task runs in a *copy* of the calling
context, so the three `handle_request` calls mutate three copies of `c`
and the caller's context is returned unchanged.  Result: caller context
afterwards, plus the three task contexts when their task finished. -/
def demo_async_request_tracking (c : ModuleCtx) : ModuleCtx × List ModuleCtx :=
  (c, [async_handle_request "req-A" (.strV "user-1") c,
       async_handle_request "req-B" (.strV "user-2") c,
       async_handle_request "req-C" (.strV "user-3") c])

/-! ### Heap model for nested dicts (08_mapping_proxy_type.py, demo 2 and 7)

For `demo_nested_protection` the values of a dict can themselves be
(references to) dicts, so dicts live on a heap addressed by `Nat` and a
proxy wraps the address of its underlying dict. -/

inductive HVal : Type where
  | intHV : Int → HVal
  | strHV : String → HVal
  | refHV : Nat → HVal
  deriving DecidableEq, Repr

abbrev HDict := List (String × HVal)

abbrev Heap := List (Nat × HDict)

def heapGet (h : Heap) (a : Nat) : Option HDict :=
  alistGet h a

/-- Direct read `d[k]` on the dict object at address `a`. -/
def dictGetH (h : Heap) (a : Nat) (k : String) : Option HVal :=
  match heapGet h a with
  | some d => alistGet d k
  | none => none

/-- Direct mutation `d[k] = v` on the dict object at address `a`. -/
def dictSetH (h : Heap) (a : Nat) (k : String) (v : HVal) : Heap :=
  match heapGet h a with
  | some d => alistSet h a (alistSet d k v)
  | none => h

/-- `proxy[k]` for a proxy wrapping the dict at address `a`: delegated
to the underlying dict object. -/
def proxyGetH (h : Heap) (a : Nat) (k : String) : Option HVal :=
  (heapGet h a).bind (fun d => alistGet d k)

/-- `proxy[k][k2] = v`: evaluate `proxy[k]`; when it is a reference to a
plain inner dict, item assignment on that inner dict succeeds (the
proxy protects only the top level), mutating the heap. -/
def proxyNestedSet (h : Heap) (a : Nat) (k k2 : String) (v : HVal) :
    Except PyErr Unit × Heap :=
  match proxyGetH h a k with
  | some (.refHV b) => (.ok (), dictSetH h b k2 v)
  | some _ => (.error (.typeError "object does not support item assignment"), h)
  | none => (.error (.keyError k), h)

/-! ### Script structure

Every file has a `__main__` block consisting of print statements and
calls of the file's `demo_*` functions (an async demo is called through
`asyncio.run(demo(...))`, which counts as calling it once).  The
`effects` field lists the kinds of externally visible operations the
script performs when run (transcribed from the source: the files use
only printing, clock reads, sleeps, thread/task spawning, garbage
collection, frame introspection, weak references, `atexit.register`,
imports and `sys.meta_path` / `sys.modules` mutation — none read
`sys.argv`, environment variables or files, and none write files). -/

inductive EffKind : Type where
  | printStdout : EffKind
  | readArgv : EffKind
  | readEnvVar : EffKind
  | readFile : EffKind
  | writeFile : EffKind
  | sleepEff : EffKind
  | clockRead : EffKind
  | spawnThreads : EffKind
  | runAsync : EffKind
  | gcCollect : EffKind
  | metaPathMutate : EffKind
  | sysModulesMutate : EffKind
  | importModule : EffKind
  | frameInspect : EffKind
  | weakrefOp : EffKind
  | atexitRegister : EffKind
  deriving DecidableEq, Repr

inductive MainStep : Type where
  | callDemo : String → MainStep
  | printLine : String → MainStep
  deriving DecidableEq, Repr

structure Script where
  filename : String
  /-- The `demo_*` functions of the file, in definition order. -/
  demoDefs : List String
  /-- The statements of the `__main__` block, in order. -/
  mainSteps : List MainStep
  /-- Kinds of externally visible operations performed when run. -/
  effects : List EffKind
  deriving DecidableEq, Repr

def isCall : MainStep → Bool
  | .callDemo _ => true
  | .printLine _ => false

/-- The demo functions called by the entry point, in call order. -/
def callsOf (steps : List MainStep) : List String :=
  steps.filterMap (fun s => match s with
    | .callDemo n => some n
    | .printLine _ => none)

def stepsAfterLastCall (steps : List MainStep) : List MainStep :=
  (steps.reverse.takeWhile (fun s => !isCall s)).reverse

def isCompletedBanner : MainStep → Bool
  | .printLine l => List.isSuffixOf "demos completed!".data l.data
  | .callDemo _ => false

/-- After the last demo call the entry point prints a closing banner. -/
def printsClosingBanner (steps : List MainStep) : Bool :=
  (stepsAfterLastCall steps).any isCompletedBanner

/-- The 60-character separator line `"=" * 60` (character 61 is the equals
sign). -/
def sep60 : String :=
  String.mk (List.replicate 60 (Char.ofNat 61))

def bannerSteps (completedLine : String) : List MainStep :=
  [.printLine ("\n" ++ sep60), .printLine completedLine, .printLine sep60]

def script01 : Script :=
  { filename := "01_descriptor_protocol.py"
    demoDefs := ["demo_basic_typed", "demo_lazy_property", "demo_validator",
                 "demo_comparison_with_property", "demo_descriptor_access_on_class"]
    mainSteps :=
      [.callDemo "demo_basic_typed", .callDemo "demo_lazy_property",
       .callDemo "demo_validator", .callDemo "demo_comparison_with_property",
       .callDemo "demo_descriptor_access_on_class"]
      ++ bannerSteps "All descriptor demos completed!"
    effects := [.printStdout] }

def script02 : Script :=
  { filename := "02_init_subclass.py"
    demoDefs := ["demo_plugin_registry", "demo_validation_on_creation",
                 "demo_parameterized_subclass", "demo_method_wrapping",
                 "demo_inheritance_tree", "demo_vs_metaclass"]
    mainSteps :=
      [.callDemo "demo_plugin_registry", .callDemo "demo_validation_on_creation",
       .callDemo "demo_parameterized_subclass", .callDemo "demo_method_wrapping",
       .callDemo "demo_inheritance_tree", .callDemo "demo_vs_metaclass"]
      ++ bannerSteps "All __init_subclass__ demos completed!"
    effects := [.printStdout] }

def script03 : Script :=
  { filename := "03_weak_references.py"
    demoDefs := ["demo_basic_weakref", "demo_weak_value_dict",
                 "demo_observer_pattern", "demo_weak_key_dict",
                 "demo_callback_management", "demo_circular_reference"]
    mainSteps :=
      [.callDemo "demo_basic_weakref", .callDemo "demo_weak_value_dict",
       .callDemo "demo_observer_pattern", .callDemo "demo_weak_key_dict",
       .callDemo "demo_callback_management", .callDemo "demo_circular_reference"]
      ++ bannerSteps "All weak reference demos completed!"
    effects := [.printStdout, .weakrefOp, .gcCollect] }

def script04 : Script :=
  { filename := "04_evaluation_order.py"
    demoDefs := ["demo_basic_evaluation_order", "demo_function_arguments",
                 "demo_boolean_short_circuit", "demo_chained_comparisons",
                 "demo_assignment_evaluation", "demo_list_comprehension_order",
                 "demo_dict_evaluation_order", "demo_exception_safety",
                 "demo_walrus_operator", "demo_side_effects",
                 "demo_comparison_with_c"]
    mainSteps :=
      [.callDemo "demo_basic_evaluation_order", .callDemo "demo_function_arguments",
       .callDemo "demo_boolean_short_circuit", .callDemo "demo_chained_comparisons",
       .callDemo "demo_assignment_evaluation", .callDemo "demo_list_comprehension_order",
       .callDemo "demo_dict_evaluation_order", .callDemo "demo_exception_safety",
       .callDemo "demo_walrus_operator", .callDemo "demo_side_effects",
       .callDemo "demo_comparison_with_c"]
      ++ bannerSteps "All evaluation order demos completed!"
    effects := [.printStdout] }

def script05 : Script :=
  { filename := "05_frame_objects.py"
    demoDefs := ["demo_basic_frame_inspection", "demo_caller_info",
                 "demo_call_stack", "demo_local_variable_access",
                 "demo_custom_debugger", "demo_context_manager",
                 "demo_performance_profiler", "demo_variable_injection",
                 "demo_inspect_comparison", "demo_practical_logging"]
    mainSteps :=
      [.callDemo "demo_basic_frame_inspection", .callDemo "demo_caller_info",
       .callDemo "demo_call_stack", .callDemo "demo_local_variable_access",
       .callDemo "demo_custom_debugger", .callDemo "demo_context_manager",
       .callDemo "demo_performance_profiler", .callDemo "demo_variable_injection",
       .callDemo "demo_inspect_comparison", .callDemo "demo_practical_logging"]
      ++ bannerSteps "All frame object demos completed!"
      ++ [.printLine "\n⚠ Remember: sys._getframe is private API",
          .printLine "For production, prefer the \x27inspect\x27 module when possible"]
    effects := [.printStdout, .frameInspect, .clockRead, .sleepEff] }

def script06 : Script :=
  { filename := "06_custom_import_hooks.py"
    demoDefs := ["demo_basic_import_blocker", "demo_import_logger",
                 "demo_dynamic_module_creation", "demo_import_deprecation",
                 "demo_import_redirect", "demo_lazy_import",
                 "demo_namespace_packages", "demo_import_profiler",
                 "demo_security_sandbox", "demo_meta_path_inspection"]
    mainSteps :=
      [.callDemo "demo_basic_import_blocker", .callDemo "demo_import_logger",
       .callDemo "demo_dynamic_module_creation", .callDemo "demo_import_deprecation",
       .callDemo "demo_import_redirect", .callDemo "demo_lazy_import",
       .callDemo "demo_namespace_packages", .callDemo "demo_import_profiler",
       .callDemo "demo_security_sandbox", .callDemo "demo_meta_path_inspection"]
      ++ bannerSteps "All custom import hook demos completed!"
      ++ [.printLine "\n⚠ Remember: Import hooks affect the entire process",
          .printLine "Always clean up (remove from sys.meta_path) when done"]
    effects := [.printStdout, .metaPathMutate, .importModule,
                .sysModulesMutate, .clockRead] }

def script07 : Script :=
  { filename := "07_weakref_finalize.py"
    demoDefs := ["demo_basic_finalize", "demo_vs_del", "demo_explicit_cleanup",
                 "demo_cleanup_with_args", "demo_check_alive", "demo_detach",
                 "demo_atexit_comparison", "demo_practical_file_handle",
                 "demo_practical_database", "demo_resurrection_safe"]
    mainSteps :=
      [.callDemo "demo_basic_finalize", .callDemo "demo_vs_del",
       .callDemo "demo_explicit_cleanup", .callDemo "demo_cleanup_with_args",
       .callDemo "demo_check_alive", .callDemo "demo_detach",
       .callDemo "demo_atexit_comparison", .callDemo "demo_practical_file_handle",
       .callDemo "demo_practical_database", .callDemo "demo_resurrection_safe"]
      ++ bannerSteps "All weakref.finalize demos completed!"
      ++ [.printLine "\nKey lessons:",
          .printLine "  ✓ Use finalize instead of __del__",
          .printLine "  ✓ Works with circular references",
          .printLine "  ✓ Can be called explicitly",
          .printLine "  ✓ Prevents resurrection bugs"]
    effects := [.printStdout, .weakrefOp, .gcCollect, .atexitRegister] }

def script08 : Script :=
  { filename := "08_mapping_proxy_type.py"
    demoDefs := ["demo_basic_usage", "demo_underlying_changes", "demo_vs_frozen",
                 "demo_config_system", "demo_class_namespace", "demo_api_response",
                 "demo_nested_protection", "demo_performance", "demo_iteration",
                 "demo_use_cases"]
    mainSteps :=
      [.callDemo "demo_basic_usage", .callDemo "demo_underlying_changes",
       .callDemo "demo_vs_frozen", .callDemo "demo_config_system",
       .callDemo "demo_class_namespace", .callDemo "demo_api_response",
       .callDemo "demo_nested_protection", .callDemo "demo_performance",
       .callDemo "demo_iteration", .callDemo "demo_use_cases"]
      ++ bannerSteps "All MappingProxyType demos completed!"
      ++ [.printLine "\nKey takeaways:",
          .printLine "  ✓ Truly read-only at runtime",
          .printLine "  ✓ Dynamic view (reflects underlying changes)",
          .printLine "  ✓ Minimal overhead",
          .printLine "  ✓ Python uses it internally for class.__dict__"]
    effects := [.printStdout, .clockRead] }

def script09 : Script :=
  { filename := "09_late_bound_defaults.py"
    demoDefs := ["demo_mutable_default_trap", "demo_none_solution",
                 "demo_sentinel_pattern", "demo_distinguishing_none",
                 "demo_multiple_sentinels", "demo_sentinel_class",
                 "demo_cpython_sentinels", "demo_dataclass_field",
                 "demo_sentinel_vs_none_performance", "demo_practical_api"]
    mainSteps :=
      [.callDemo "demo_mutable_default_trap", .callDemo "demo_none_solution",
       .callDemo "demo_sentinel_pattern", .callDemo "demo_distinguishing_none",
       .callDemo "demo_multiple_sentinels", .callDemo "demo_sentinel_class",
       .callDemo "demo_cpython_sentinels", .callDemo "demo_dataclass_field",
       .callDemo "demo_sentinel_vs_none_performance", .callDemo "demo_practical_api"]
      ++ bannerSteps "All late-bound defaults (sentinel) demos completed!"
      ++ [.printLine "\nKey lessons:",
          .printLine "  ✓ Use sentinel = object() for late-bound defaults",
          .printLine "  ✓ Distinguishes \x27not provided\x27 from None or any other value",
          .printLine "  ✓ Zero performance overhead",
          .printLine "  ✓ Used extensively in CPython itself"]
    effects := [.printStdout, .clockRead] }

def script10 : Script :=
  { filename := "10_contextvars.py"
    demoDefs := ["demo_basic_usage", "demo_vs_global", "demo_threading_isolation",
                 "demo_async_isolation", "demo_request_tracking",
                 "demo_async_request_tracking", "demo_context_copying",
                 "demo_default_values", "demo_token_reset", "demo_practical_web_app"]
    mainSteps :=
      [.printLine "Starting context variable demos...\n",
       .callDemo "demo_basic_usage", .callDemo "demo_vs_global",
       .callDemo "demo_threading_isolation", .callDemo "demo_async_isolation",
       .callDemo "demo_request_tracking", .callDemo "demo_async_request_tracking",
       .callDemo "demo_context_copying", .callDemo "demo_default_values",
       .callDemo "demo_token_reset", .callDemo "demo_practical_web_app"]
      ++ bannerSteps "All contextvars demos completed!"
      ++ [.printLine "\nKey lessons:",
          .printLine "  ✓ Context variables are async-safe (unlike threading.local)",
          .printLine "  ✓ Each execution context has its own values",
          .printLine "  ✓ Perfect for request tracking, logging, auth",
          .printLine "  ✓ Modern Python web frameworks rely on this heavily"]
    effects := [.printStdout, .spawnThreads, .runAsync, .sleepEff] }

/-- All ten scripts of the repository. -/
def scripts : List Script :=
  [script01, script02, script03, script04, script05,
   script06, script07, script08, script09, script10]

/-! ### Run semantics over effect kinds (for the I/O claims)

A run of a script is interpreted over its effect-kind list.  The
interpretation is schematic in the printed contents (an oracle supplies
clock readings, scheduling and garbage-collection nondeterminism, which
the printed lines may depend on), but it is exact about *where* each
effect kind gets its data from: only `readArgv` consults `argv`, only
`readEnvVar` consults the environment, only `readFile` consults the
disk, and only `writeFile` produces an event that is not a line on
standard output. -/

structure RunInputs where
  argv : List String
  env : List (String × String)
  /-- contents of files on disk -/
  files : Nat → Nat
  /-- clock readings, thread scheduling, GC timing -/
  oracle : Nat → Nat

inductive OutEvent : Type where
  | stdoutLine : Nat → OutEvent
  | fileWrite : Nat → OutEvent
  deriving DecidableEq, Repr

def OutEvent.isStdout : OutEvent → Bool
  | .stdoutLine _ => true
  | .fileWrite _ => false

/-- Observable output of one effect, at position `step` of the run. -/
def effOutput (inp : RunInputs) (step : Nat) : EffKind → List OutEvent
  | .printStdout => [.stdoutLine (inp.oracle step)]
  | .readArgv => [.stdoutLine inp.argv.length]
  | .readEnvVar => [.stdoutLine inp.env.length]
  | .readFile => [.stdoutLine (inp.files step)]
  | .writeFile => [.fileWrite (inp.oracle step)]
  | .clockRead => [.stdoutLine (inp.oracle step)]
  | .frameInspect => [.stdoutLine (inp.oracle step)]
  | .gcCollect => [.stdoutLine (inp.oracle step)]
  | .weakrefOp => [.stdoutLine (inp.oracle step)]
  | _ => []

def runEffectsFrom (inp : RunInputs) : Nat → List EffKind → List OutEvent
  | _, [] => []
  | step, e :: rest => effOutput inp step e ++ runEffectsFrom inp (step + 1) rest

/-- The observable behaviour of a script on the given inputs. -/
def runScript (sc : Script) (inp : RunInputs) : List OutEvent :=
  runEffectsFrom inp 0 sc.effects

/-- Effect kinds that read an input beyond the oracle. -/
def readsExternalInput : EffKind → Bool
  | .readArgv => true
  | .readEnvVar => true
  | .readFile => true
  | _ => false

/-! ### Context isolation across threads and tasks (10_contextvars.py)

`demo_threading_isolation` starts three OS threads; each runs in its
own fresh context (a new thread starts with an empty context, so a
`ContextVar` read falls back to its default until the thread sets it).
`demo_async_isolation` gathers three tasks; each task runs in a copy of
the creating context, in which `task_id` is unset.  Both demos are
instances of one system: three workers, each executing a `set` step
followed by a `read` step, interleaved by an arbitrary scheduler, with
a per-worker context and the main context as the global state. -/

structure CtxSys (α : Type) where
  /-- binding of the `ContextVar` in each worker's context -/
  ctx : Fin 3 → Option α
  /-- 0 = before `set`, 1 = before `read`, 2 = finished -/
  pc : Fin 3 → Nat
  /-- the value each worker observed at its `read` step -/
  reads : Fin 3 → Option α
  /-- binding of the `ContextVar` in the main context -/
  mainCtx : Option α

/-- One scheduler step: run the next instruction of worker `i` (no-op
when that worker already finished).  `val i` is the value worker `i`
sets its `ContextVar` to. -/
def ctxStep {α : Type} (val : Fin 3 → α) (sys : CtxSys α) (i : Fin 3) : CtxSys α :=
  if sys.pc i = 0 then
    { sys with ctx := Function.update sys.ctx i (some (val i)),
               pc := Function.update sys.pc i 1 }
  else if sys.pc i = 1 then
    { sys with reads := Function.update sys.reads i (sys.ctx i),
               pc := Function.update sys.pc i 2 }
  else sys

/-- Run the three workers under the interleaving `sched`. -/
def ctxRun {α : Type} (val : Fin 3 → α) (sched : List (Fin 3))
    (init : CtxSys α) : CtxSys α :=
  sched.foldl (ctxStep val) init

/-- Initial state shared by both demos: every worker context has the
variable unset (fresh context for a thread; for a task, a copy of the
main context in which the variable was never set), no worker started,
and the main context never sets the variable. -/
def ctxInit (α : Type) : CtxSys α :=
  { ctx := fun _ => none, pc := fun _ => 0, reads := fun _ => none,
    mainCtx := none }

/-- `demo_threading_isolation`: thread `i` runs `counter.set(i * 10)`. -/
def threadVal (i : Fin 3) : Nat := 10 * i.val

/-- `demo_async_isolation`: task `i` runs `task_id.set("task-" + str(i))`. -/
def asyncVal (i : Fin 3) : String := "task-" ++ toString i.val

/-- `counter.get()` (default 0). -/
def counterGet (binding : Option Nat) : Nat := binding.getD 0

/-- `task_id.get()` (default `'none'`). -/
def taskIdGet (binding : Option String) : String := binding.getD "none"

/-- Invariant tying every worker's context and observed read to its own
value: no worker ever observes another worker's value, and the main
context stays unset. -/
def CtxInv {α : Type} (val : Fin 3 → α) (sys : CtxSys α) : Prop :=
  sys.mainCtx = none ∧
  ∀ i : Fin 3,
    (sys.pc i = 0 ∧ sys.ctx i = none ∧ sys.reads i = none) ∨
    (sys.pc i = 1 ∧ sys.ctx i = some (val i) ∧ sys.reads i = none) ∨
    (sys.pc i = 2 ∧ sys.ctx i = some (val i) ∧ sys.reads i = some (val i))

/-! ## Theorems -/

/-- C1: Assignment through the `Typed` descriptor raises `TypeError` iff the
value is not an instance of `expected_type`; on raise the instance dictionary
is unchanged, and otherwise the value is stored under the descriptor's name
and a subsequent `Typed.__get__` on that instance returns it. -/
theorem typed_set_typecheck (t : Typed) (inst : Dict) (v : PyVal) :
    (raisesTypeError (Typed.set t inst v).1 = true ↔
      isinstance v t.expected_type = false) ∧
    (raisesTypeError (Typed.set t inst v).1 = true →
      (Typed.set t inst v).2 = inst) ∧
    (raisesTypeError (Typed.set t inst v).1 = false →
      alistGet (Typed.set t inst v).2 t.name = some v ∧
      Typed.get t (Typed.set t inst v).2 = some v) := by
  by_cases h : isinstance v t.expected_type
  · refine ⟨?_, ?_, ?_⟩ <;>
      simp [Typed.set, h, raisesTypeError, Typed.get, alistGet_alistSet_self]
  · refine ⟨?_, ?_, ?_⟩ <;>
      simp [Typed.set, h, raisesTypeError]

/-- Witness for C1: with `age = Typed("age", int)`, assigning a string raises
and leaves the empty instance dictionary unchanged, while assigning `30`
stores it and a read returns `30`. -/
theorem typed_set_typecheck_witness :
    (Typed.set { name := "age", expected_type := .intT } [] (.strV "x")).2 = [] ∧
    Typed.get { name := "age", expected_type := .intT }
      (Typed.set { name := "age", expected_type := .intT } [] (.intV 30)).2 =
      some (.intV 30) := by
  refine ⟨?_, ?_⟩
  · exact (typed_set_typecheck { name := "age", expected_type := .intT } []
      (.strV "x")).2.1 (by decide)
  · exact ((typed_set_typecheck { name := "age", expected_type := .intT } []
      (.intV 30)).2.2 (by decide)).2

/-- C4: Item assignment and item deletion through a `MappingProxyType` view
always raise `TypeError`, and the entries of the wrapped dict (and hence of
the view) are exactly the same after the attempt as before it. -/
theorem proxy_mutation_raises (d : Dict) (k : String) (v : PyVal) :
    raisesTypeError (proxySetItem d k v).1 = true ∧
    (proxySetItem d k v).2 = d ∧
    (∀ k2, proxyGet (proxySetItem d k v).2 k2 = proxyGet d k2) ∧
    raisesTypeError (proxyDelItem d k).1 = true ∧
    (proxyDelItem d k).2 = d ∧
    (∀ k2, proxyGet (proxyDelItem d k).2 k2 = proxyGet d k2) :=
  ⟨rfl, rfl, fun _ => rfl, rfl, rfl, fun _ => rfl⟩

/-- C5: `ImportBlocker(B).find_spec(n, path)` raises `ImportError` iff `n` is
in the blocked set, and returns `None` (deferring to the remaining finders)
iff `n` is not blocked. -/
theorem import_blocker_find_spec (b : ImportBlocker) (n : String) :
    (raisesImportError (b.find_spec n) = true ↔ n ∈ b.blocked_modules) ∧
    (b.find_spec n = .ok none ↔ n ∉ b.blocked_modules) := by
  by_cases h : n ∈ b.blocked_modules <;>
    simp [ImportBlocker.find_spec, h, raisesImportError]

/-- Witness for C5: with `ImportBlocker(['json', 'os'])`, importing `json`
raises `ImportError` and importing `sys` returns `None`. -/
theorem import_blocker_find_spec_witness :
    raisesImportError (ImportBlocker.find_spec
      { blocked_modules := ["json", "os"] } "json") = true ∧
    ImportBlocker.find_spec { blocked_modules := ["json", "os"] } "sys" =
      .ok none := by
  refine ⟨(import_blocker_find_spec { blocked_modules := ["json", "os"] }
      "json").1.mpr (by decide),
    (import_blocker_find_spec { blocked_modules := ["json", "os"] }
      "sys").2.mpr (by decide)⟩

/-- C6: The sentinel distinguishes an omitted argument from every explicitly
provided value: omitting `value` (so the default `_not_provided` is bound)
takes the "not set" branch, and for every `v` other than the sentinel itself
the branch is "clearing" exactly when `v` is `None` and "set to" otherwise. -/
theorem sentinel_distinguishes (key : String) (v : PyVal) (hv : v ≠ not_provided) :
    set_config key not_provided = .notSetKeeping ∧
    set_config key v ≠ .notSetKeeping ∧
    (v = .noneV → set_config key v = .clearingToNone) ∧
    (v ≠ .noneV → set_config key v = .setToValue) := by
  have hnone : PyVal.noneV ≠ not_provided := by decide
  refine ⟨by simp [set_config], ?_, ?_, ?_⟩
  · by_cases h : v = .noneV <;> simp [set_config, hv, h, hnone]
  · intro h; simp [set_config, hv, h, hnone]
  · intro h; simp [set_config, hv, h, hnone]

/-- Witness for C6: the three calls of `demo_distinguishing_none`. -/
theorem sentinel_distinguishes_witness :
    set_config "database_url" not_provided = .notSetKeeping ∧
    set_config "database_url" .noneV = .clearingToNone ∧
    set_config "database_url" (.strV "postgresql://localhost/db") = .setToValue := by
  refine ⟨(sentinel_distinguishes "database_url" .noneV (by decide)).1,
    (sentinel_distinguishes "database_url" .noneV (by decide)).2.2.1 rfl,
    (sentinel_distinguishes "database_url" (.strV "postgresql://localhost/db")
      (by decide)).2.2.2 (by decide)⟩

/-- Helper: once the attribute is in the instance dictionary, every further
read through `LazyProperty.__get__` returns it without calling `func` or
touching the instance. -/
theorem lazyGetN_cached (lp : LazyProperty) (func : Inst → PyVal × Inst)
    (n : Nat) (inst : Inst) (v : PyVal)
    (h : alistGet inst.attrs lp.name = some v) :
    LazyProperty.getN lp func n inst = (List.replicate n v, inst, 0) := by
  induction n with
  | zero => simp [LazyProperty.getN]
  | succ n ih => simp [LazyProperty.getN, LazyProperty.get, h, ih, List.replicate]

/-- C9: Starting from an instance whose dictionary does not yet hold the
attribute, `n ≥ 1` consecutive reads through `LazyProperty` call the wrapped
function exactly once, all `n` reads return the value the first read
computed, and that value is stored in the instance dictionary under the
function's name. -/
theorem lazy_property_computes_once (lp : LazyProperty)
    (func : Inst → PyVal × Inst) (inst : Inst) (n : Nat) (hn : 1 ≤ n)
    (hfresh : alistGet inst.attrs lp.name = none) :
    (LazyProperty.getN lp func n inst).2.2 = 1 ∧
    (LazyProperty.getN lp func n inst).1 = List.replicate n (func inst).1 ∧
    alistGet (LazyProperty.getN lp func n inst).2.1.attrs lp.name =
      some (func inst).1 := by
  obtain ⟨m, rfl⟩ : ∃ m, n = m + 1 := ⟨n - 1, by omega⟩
  have hstored :
      alistGet (LazyProperty.get lp func inst).2.1.attrs lp.name =
        some (func inst).1 := by
    simp [LazyProperty.get, hfresh, alistGet_alistSet_self]
  have hrest := lazyGetN_cached lp func m (LazyProperty.get lp func inst).2.1
    (func inst).1 hstored
  have hval : (LazyProperty.get lp func inst).1 = (func inst).1 := by
    simp [LazyProperty.get, hfresh]
  have hcalled : (LazyProperty.get lp func inst).2.2 = true := by
    simp [LazyProperty.get, hfresh]
  refine ⟨?_, ?_, ?_⟩ <;>
    simp [LazyProperty.getN, hrest, hval, hcalled, hstored, List.replicate]

/-- Witness for C9: three reads of `expensive_result` on a fresh instance
call the function once and all return its value. -/
theorem lazy_property_computes_once_witness :
    (LazyProperty.getN { name := "expensive_result" }
      (fun i => (.intV 55, { i with count := i.count + 1 }))
      3 { attrs := [], count := 0 }).2.2 = 1 ∧
    (LazyProperty.getN { name := "expensive_result" }
      (fun i => (.intV 55, { i with count := i.count + 1 }))
      3 { attrs := [], count := 0 }).1 = [.intV 55, .intV 55, .intV 55] := by
  have h := lazy_property_computes_once { name := "expensive_result" }
    (fun i => (.intV 55, { i with count := i.count + 1 }))
    { attrs := [], count := 0 } 3 (by omega) rfl
  exact ⟨h.1, h.2.1⟩

/-- C2 counterexample: `demo_request_tracking` does leave state behind.
Started from the module's initial context, after it returns the module-level
`ContextVar` `request_id` is bound to `"req-002"`, so the observable
module-level state after the call differs from the state before it. -/
theorem demo_request_tracking_leaves_state :
    demo_request_tracking initialModuleCtx ≠ initialModuleCtx ∧
    requestIdGet (demo_request_tracking initialModuleCtx) = "req-002" ∧
    requestIdGet initialModuleCtx = "no-request" := by
  refine ⟨by decide, rfl, rfl⟩

/-- C2 (amended): `demo_request_tracking` returns with `request_id` set to
`"req-002"` (the id of the last handled request) and changes nothing else in
the calling context, while `demo_async_request_tracking` leaves the calling
context entirely unchanged because each of its tasks runs in a copy of it. -/
theorem demo_request_tracking_effect (c : ModuleCtx) :
    demo_request_tracking c = { c with requestIdBinding := some "req-002" } ∧
    (demo_request_tracking c).userIdBinding = c.userIdBinding ∧
    (demo_async_request_tracking c).1 = c :=
  ⟨rfl, rfl, rfl⟩

/-- C3: For every script in the repository, the entry point calls each
`demo_*` function defined in that file exactly once, in definition order,
and prints a closing banner after the last demo returns. -/
theorem entry_point_calls_demos_in_order (sc : Script) (hsc : sc ∈ scripts) :
    callsOf sc.mainSteps = sc.demoDefs ∧ sc.demoDefs.Nodup ∧
    printsClosingBanner sc.mainSteps = true := by
  fin_cases hsc <;> exact ⟨by decide, by decide, by decide⟩

/-- Witness for C3: the property at `01_descriptor_protocol.py`. -/
theorem entry_point_calls_demos_in_order_witness :
    callsOf script01.mainSteps = script01.demoDefs ∧ script01.demoDefs.Nodup ∧
    printsClosingBanner script01.mainSteps = true :=
  entry_point_calls_demos_in_order script01 (by decide)

theorem ctxStep_mainCtx {α : Type} (val : Fin 3 → α) (sys : CtxSys α) (i : Fin 3) :
    (ctxStep val sys i).mainCtx = sys.mainCtx := by
  unfold ctxStep
  split
  · rfl
  · split <;> rfl

theorem ctxStep_apply_ne {α : Type} (val : Fin 3 → α) (sys : CtxSys α)
    (i j : Fin 3) (hji : j ≠ i) :
    (ctxStep val sys i).pc j = sys.pc j ∧
    (ctxStep val sys i).ctx j = sys.ctx j ∧
    (ctxStep val sys i).reads j = sys.reads j := by
  unfold ctxStep
  split
  · exact ⟨Function.update_noteq hji _ _, Function.update_noteq hji _ _, rfl⟩
  · split
    · exact ⟨Function.update_noteq hji _ _, rfl, Function.update_noteq hji _ _⟩
    · exact ⟨rfl, rfl, rfl⟩

/-- A scheduler step preserves the isolation invariant. -/
theorem ctxStep_inv {α : Type} (val : Fin 3 → α) (sys : CtxSys α) (i : Fin 3)
    (h : CtxInv val sys) : CtxInv val (ctxStep val sys i) := by
  obtain ⟨hmain, hinv⟩ := h
  refine ⟨(ctxStep_mainCtx val sys i).trans hmain, fun j => ?_⟩
  by_cases hji : j = i
  · subst hji
    rcases hinv j with ⟨h0, hc, hr⟩ | ⟨h0, hc, hr⟩ | ⟨h0, hc, hr⟩
    · right; left
      unfold ctxStep
      simp [h0, Function.update_same, hr]
    · right; right
      unfold ctxStep
      simp [h0, Function.update_same, hc]
    · have h2 : ¬sys.pc j = 0 := by omega
      have h3 : ¬sys.pc j = 1 := by omega
      right; right
      unfold ctxStep
      simp [h2, h3, h0, hc, hr]
  · obtain ⟨hp, hc, hr⟩ := ctxStep_apply_ne val sys i j hji
    rcases hinv j with ⟨h0, hcx, hrd⟩ | ⟨h0, hcx, hrd⟩ | ⟨h0, hcx, hrd⟩
    · left; exact ⟨hp.trans h0, hc.trans hcx, hr.trans hrd⟩
    · right; left; exact ⟨hp.trans h0, hc.trans hcx, hr.trans hrd⟩
    · right; right; exact ⟨hp.trans h0, hc.trans hcx, hr.trans hrd⟩

theorem ctxRun_inv {α : Type} (val : Fin 3 → α) (sched : List (Fin 3))
    (init : CtxSys α) (h : CtxInv val init) :
    CtxInv val (ctxRun val sched init) := by
  induction sched generalizing init with
  | nil => exact h
  | cons j t ih => exact ih (ctxStep val init j) (ctxStep_inv val init j h)

/-- How far a worker's program counter gets: each scheduled occurrence
advances it by one until it reaches 2. -/
theorem ctxRun_pc_count {α : Type} (val : Fin 3 → α) (sched : List (Fin 3))
    (init : CtxSys α) (i : Fin 3) (hle : init.pc i ≤ 2) :
    (ctxRun val sched init).pc i = min 2 (init.pc i + sched.count i) := by
  induction sched generalizing init with
  | nil =>
      simp only [ctxRun, List.foldl_nil, List.count_nil]
      omega
  | cons j t ih =>
      have hstep : ctxRun val (j :: t) init = ctxRun val t (ctxStep val init j) := rfl
      by_cases hji : j = i
      · subst hji
        have hpc : (ctxStep val init j).pc j =
            if init.pc j = 0 then 1 else if init.pc j = 1 then 2 else init.pc j := by
          unfold ctxStep
          split
          · simp_all [Function.update_same]
          · split <;> simp_all [Function.update_same]
        have hle2 : (ctxStep val init j).pc j ≤ 2 := by
          rw [hpc]; split <;> try split
          all_goals omega
        rw [hstep, ih (ctxStep val init j) hle2, hpc]
        have hcount : (j :: t).count j = t.count j + 1 := by
          simp [List.count_cons]
        rw [hcount]
        split <;> try split
        all_goals omega
      · obtain ⟨hp, _, _⟩ := ctxStep_apply_ne val init j i (Ne.symm hji)
        have hcount : (j :: t).count i = t.count i := by
          simp [List.count_cons, hji]
        rw [hstep, ih (ctxStep val init j) (hp ▸ hle), hp, hcount]

/-- C7: Context-local values are isolated per execution context.  Under every
interleaving that lets each worker run both its steps, each of the three
threads of `demo_threading_isolation` reads back exactly the value
`i * 10` it set, and the main thread reads the default `0` after the joins;
each of the three tasks of `demo_async_isolation` reads back exactly its own
`"task-" + str(i)`, and no worker ever observes another worker's value. -/
theorem context_isolation (schedT schedA : List (Fin 3))
    (hT : ∀ i, 2 ≤ schedT.count i) (hA : ∀ i, 2 ≤ schedA.count i) :
    (∀ i, (ctxRun threadVal schedT (ctxInit Nat)).reads i = some (10 * i.val)) ∧
    counterGet (ctxRun threadVal schedT (ctxInit Nat)).mainCtx = 0 ∧
    (∀ i, (ctxRun asyncVal schedA (ctxInit String)).reads i =
      some ("task-" ++ toString i.val)) ∧
    taskIdGet (ctxRun asyncVal schedA (ctxInit String)).mainCtx = "none" := by
  have hinitT : CtxInv threadVal (ctxInit Nat) :=
    ⟨rfl, fun i => Or.inl ⟨rfl, rfl, rfl⟩⟩
  have hinitA : CtxInv asyncVal (ctxInit String) :=
    ⟨rfl, fun i => Or.inl ⟨rfl, rfl, rfl⟩⟩
  have hrunT := ctxRun_inv threadVal schedT (ctxInit Nat) hinitT
  have hrunA := ctxRun_inv asyncVal schedA (ctxInit String) hinitA
  have hinit0N : ∀ i : Fin 3, (ctxInit Nat).pc i = 0 := fun _ => rfl
  have hinit0S : ∀ i : Fin 3, (ctxInit String).pc i = 0 := fun _ => rfl
  have hreadsT : ∀ i, (ctxRun threadVal schedT (ctxInit Nat)).reads i =
      some (threadVal i) := by
    intro i
    have hpc := ctxRun_pc_count threadVal schedT (ctxInit Nat) i
      (by rw [hinit0N i]; omega)
    have hpc2 : (ctxRun threadVal schedT (ctxInit Nat)).pc i = 2 := by
      rw [hpc, hinit0N i]
      have hc := hT i
      omega
    rcases hrunT.2 i with ⟨h0, _, _⟩ | ⟨h0, _, _⟩ | ⟨_, _, hr⟩
    · omega
    · omega
    · exact hr
  have hreadsA : ∀ i, (ctxRun asyncVal schedA (ctxInit String)).reads i =
      some (asyncVal i) := by
    intro i
    have hpc := ctxRun_pc_count asyncVal schedA (ctxInit String) i
      (by rw [hinit0S i]; omega)
    have hpc2 : (ctxRun asyncVal schedA (ctxInit String)).pc i = 2 := by
      rw [hpc, hinit0S i]
      have hc := hA i
      omega
    rcases hrunA.2 i with ⟨h0, _, _⟩ | ⟨h0, _, _⟩ | ⟨_, _, hr⟩
    · omega
    · omega
    · exact hr
  refine ⟨fun i => ?_, ?_, fun i => ?_, ?_⟩
  · simpa [threadVal] using hreadsT i
  · rw [counterGet, hrunT.1]; rfl
  · simpa [asyncVal] using hreadsA i
  · rw [taskIdGet, hrunA.1]; rfl

/-- Witness for C7: a concrete round-robin schedule for the threads and a
concrete run-to-completion schedule for the tasks. -/
theorem context_isolation_witness :
    (ctxRun threadVal [0, 1, 2, 0, 1, 2] (ctxInit Nat)).reads 0 = some 0 ∧
    (ctxRun threadVal [0, 1, 2, 0, 1, 2] (ctxInit Nat)).reads 2 = some 20 ∧
    counterGet (ctxRun threadVal [0, 1, 2, 0, 1, 2] (ctxInit Nat)).mainCtx = 0 ∧
    (ctxRun asyncVal [0, 0, 1, 1, 2, 2] (ctxInit String)).reads 2 =
      some "task-2" := by
  obtain ⟨h1, h2, h3, h4⟩ := context_isolation [0, 1, 2, 0, 1, 2]
    [0, 0, 1, 1, 2, 2] (by decide) (by decide)
  have e0 : (10 * ((0 : Fin 3) : Nat)) = 0 := by decide
  have e2 : (10 * ((2 : Fin 3) : Nat)) = 20 := by decide
  have e3 : ("task-" ++ toString ((2 : Fin 3) : Nat)) = "task-2" := by decide
  exact ⟨e0 ▸ h1 0, e2 ▸ h1 2, h2, e3 ▸ h3 2⟩

theorem effOutput_oracle_only (inp inp2 : RunInputs) (step : Nat) (e : EffKind)
    (he : readsExternalInput e = false) (h : inp.oracle = inp2.oracle) :
    effOutput inp step e = effOutput inp2 step e := by
  cases e <;> simp_all [effOutput, readsExternalInput]

theorem runEffectsFrom_oracle_only (inp inp2 : RunInputs)
    (h : inp.oracle = inp2.oracle) :
    ∀ (step : Nat) (effs : List EffKind),
      (∀ e ∈ effs, readsExternalInput e = false) →
      runEffectsFrom inp step effs = runEffectsFrom inp2 step effs := by
  intro step effs
  induction effs generalizing step with
  | nil => intro _; rfl
  | cons e rest ih =>
      intro hall
      have he := hall e (List.mem_cons_self e rest)
      have hrest : ∀ e2 ∈ rest, readsExternalInput e2 = false :=
        fun e2 hm => hall e2 (List.mem_cons_of_mem e hm)
      simp only [runEffectsFrom]
      rw [effOutput_oracle_only inp inp2 step e he h, ih (step + 1) hrest]

theorem effOutput_stdout_only (inp : RunInputs) (step : Nat) (e : EffKind)
    (he : e ≠ EffKind.writeFile) :
    ∀ ev ∈ effOutput inp step e, ev.isStdout = true := by
  cases e <;> simp_all [effOutput, OutEvent.isStdout]

theorem runEffectsFrom_stdout_only (inp : RunInputs) :
    ∀ (step : Nat) (effs : List EffKind),
      (∀ e ∈ effs, e ≠ EffKind.writeFile) →
      ∀ ev ∈ runEffectsFrom inp step effs, ev.isStdout = true := by
  intro step effs
  induction effs generalizing step with
  | nil => intro _ ev hev; simp [runEffectsFrom] at hev
  | cons e rest ih =>
      intro hall ev hev
      simp only [runEffectsFrom, List.mem_append] at hev
      rcases hev with hev | hev
      · exact effOutput_stdout_only inp step e (hall e (List.mem_cons_self e rest)) ev hev
      · exact ih (step + 1) (fun e2 hm => hall e2 (List.mem_cons_of_mem e hm)) ev hev

/-- C8: For every script in the repository, the observable behaviour of a run
is independent of command-line arguments, environment variables and files on
disk (two runs that differ only in those agree), and every observable event
of a run is a line on standard output — no file on disk is written. -/
theorem scripts_no_external_io (sc : Script) (hsc : sc ∈ scripts) :
    (∀ inp inp2 : RunInputs, inp.oracle = inp2.oracle →
      runScript sc inp = runScript sc inp2) ∧
    (∀ inp : RunInputs, ∀ ev ∈ runScript sc inp, ev.isStdout = true) := by
  have hread : ∀ e ∈ sc.effects, readsExternalInput e = false := by
    fin_cases hsc <;> decide
  have hwrite : ∀ e ∈ sc.effects, e ≠ EffKind.writeFile := by
    fin_cases hsc <;> decide
  exact ⟨fun inp inp2 h => runEffectsFrom_oracle_only inp inp2 h 0 sc.effects hread,
    fun inp ev hev => runEffectsFrom_stdout_only inp 0 sc.effects hwrite ev hev⟩

/-- A run input with some command-line arguments and environment. -/
def inpWithArgs : RunInputs :=
  { argv := ["--verbose", "extra"], env := [("HOME", "/root"), ("DEBUG", "1")],
    files := fun _ => 7, oracle := fun step => step }

/-- A run input with no arguments and an empty environment, but the same
oracle (clock/scheduling) as `inpWithArgs`. -/
def inpNoArgs : RunInputs :=
  { argv := [], env := [], files := fun _ => 0, oracle := fun step => step }

/-- Witness for C8: `01_descriptor_protocol.py` behaves identically on the
two inputs, and all its output goes to standard output. -/
theorem scripts_no_external_io_witness :
    runScript script01 inpWithArgs = runScript script01 inpNoArgs ∧
    (∀ ev ∈ runScript script01 inpWithArgs, ev.isStdout = true) := by
  obtain ⟨h1, h2⟩ := scripts_no_external_io script01 (by decide)
  exact ⟨h1 inpWithArgs inpNoArgs rfl, h2 inpWithArgs⟩

/-- C10: The read-only protection of `MappingProxyType` is shallow and the
view is live: reads through the proxy always agree with the underlying dict,
a value written directly into the underlying dict is immediately visible
through the proxy, and when an entry of the dict is itself a (reference to
a) mutable dict, item assignment on that inner dict through the proxy
succeeds without raising and the change is visible on the next read through
the proxy. -/
theorem proxy_live_and_shallow (hp : Heap) (a : Nat) :
    (∀ k, proxyGetH hp a k = dictGetH hp a k) ∧
    ((heapGet hp a).isSome = true →
      ∀ k v, proxyGetH (dictSetH hp a k v) a k = some v) ∧
    (∀ b k k2 v, proxyGetH hp a k = some (.refHV b) →
      (heapGet hp b).isSome = true → b ≠ a →
      (proxyNestedSet hp a k k2 v).1 = .ok () ∧
      proxyGetH (proxyNestedSet hp a k k2 v).2 a k = some (.refHV b) ∧
      proxyGetH (proxyNestedSet hp a k k2 v).2 b k2 = some v) := by
  refine ⟨?_, ?_, ?_⟩
  · intro k
    unfold proxyGetH dictGetH
    cases heapGet hp a <;> rfl
  · intro hsome k v
    obtain ⟨d, hd⟩ := Option.isSome_iff_exists.mp hsome
    have hd2 : alistGet hp a = some d := hd
    unfold dictSetH proxyGetH heapGet
    rw [hd2]
    simp [alistGet_alistSet_self]
  · intro b k k2 v hk hbsome hba
    obtain ⟨db, hdb⟩ := Option.isSome_iff_exists.mp hbsome
    have hdb2 : alistGet hp b = some db := hdb
    have hns : proxyNestedSet hp a k k2 v = (.ok (), dictSetH hp b k2 v) := by
      unfold proxyNestedSet
      rw [hk]
    have hheap : dictSetH hp b k2 v = alistSet hp b (alistSet db k2 v) := by
      unfold dictSetH heapGet
      rw [hdb2]
    refine ⟨by rw [hns], ?_, ?_⟩
    · rw [hns]
      simp only [hheap]
      unfold proxyGetH heapGet
      rw [alistGet_alistSet_ne hp b a (alistSet db k2 v) (Ne.symm hba)]
      exact hk
    · rw [hns]
      simp only [hheap]
      unfold proxyGetH heapGet
      rw [alistGet_alistSet_self]
      simp [alistGet_alistSet_self]

/-- The heap of `demo_nested_protection`: address 0 holds
`{"simple": 42, "nested": <ref 1>}` and address 1 holds
`{"inner": "value"}`. -/
def nestedDemoHeap : Heap :=
  [(0, [("simple", .intHV 42), ("nested", .refHV 1)]),
   (1, [("inner", .strHV "value")])]

/-- Witness for C10: on the heap of `demo_nested_protection`, mutating the
inner dict through the proxy succeeds and the change is visible, and a
direct write to the underlying dict is visible through the proxy. -/
theorem proxy_live_and_shallow_witness :
    proxyGetH (dictSetH nestedDemoHeap 0 "new_field" (.strHV "appeared")) 0
      "new_field" = some (.strHV "appeared") ∧
    (proxyNestedSet nestedDemoHeap 0 "nested" "inner" (.strHV "MODIFIED")).1 =
      .ok () ∧
    proxyGetH (proxyNestedSet nestedDemoHeap 0 "nested" "inner"
      (.strHV "MODIFIED")).2 1 "inner" = some (.strHV "MODIFIED") := by
  obtain ⟨hdel, hlive, hnested⟩ := proxy_live_and_shallow nestedDemoHeap 0
  obtain ⟨hok, _, hvis⟩ := hnested 1 "nested" "inner" (.strHV "MODIFIED")
    (by decide) (by decide) (by decide)
  exact ⟨hlive (by decide) "new_field" (.strHV "appeared"), hok, hvis⟩

end DeepTechDemos
